import Mathlib

/-!
Verification of the `jr_py_writer` FileHandler against its natural-language
specification.  The Python sources (`jr_py_writer/handler_file.py`,
`jr_py_writer/utils/utilities.py`) are shallowly embedded below: the pure
logic of each method becomes a Lean function over explicit state, fallible
code returns `Except`, the filesystem is a map from rotation index to
optional file content, and the thread pool is reduced to its observable
shutdown flag.
-/

namespace JrPyWriter

/-! ## Write buffer (`FileHandler._write_to_buffer`, `_get_buffer_message`)

The Python buffer is a `StringIO`.  `tell()` returns the current position in
*characters* (code points), while the overflow check adds
`len(message.encode("utf-8"))`, the *byte* length of the incoming message.
We model the buffer as the list of messages appended so far (each stored
followed by one `"\n"`), with both counts derived from the list. -/

/-- Byte length of `message.encode("utf-8")` in the Python source. -/
def msgBytes (m : String) : ℕ := m.utf8ByteSize

/-- Character count of a message, matching `StringIO` position arithmetic. -/
def msgChars (m : String) : ℕ := m.length

/-- `StringIO.tell()` after the messages in `b` were written, each followed by
a one-character newline. -/
def bufTell (b : List String) : ℕ := (b.map (fun m => m.length + 1)).sum

/-- UTF-8 byte count of the buffered content (each message plus its one-byte
newline). -/
def bufBytes (b : List String) : ℕ := (b.map (fun m => m.utf8ByteSize + 1)).sum

/-- The string held by the buffer: every stored message followed by `"\n"`
(`_write_to_buffer` writes `message + "\n"`). -/
def bufValue (b : List String) : String := String.join (b.map (fun m => m ++ "\x0A"))

/-- Python `str.strip()` on the underlying character list: drop leading and
trailing whitespace. -/
def stripChars (l : List Char) : List Char :=
  ((l.dropWhile Char.isWhitespace).reverse.dropWhile Char.isWhitespace).reverse

/-- Python `str.strip()` (`_get_buffer_message` returns
`self._buffer.getvalue().strip()`). -/
def pyStrip (s : String) : String := ⟨stripChars s.data⟩

/-- `FileHandler._write_to_buffer` for a live buffer (`max_buffer_size > 0`):
if `tell() + len(message.encode("utf-8")) > max_buffer_size` the buffer is
drained (`_get_buffer_message`) and returned, the buffer is reset and the
incoming message is NOT appended; otherwise `message + "\n"` is appended and
`None` is returned.  The first component is the drained message list (`none`
means the message was buffered), the second the buffer afterwards. -/
def writeToBuffer (maxBuf : ℕ) (b : List String) (m : String) :
    Option (List String) × List String :=
  if bufTell b + msgBytes m > maxBuf then (some b, []) else (none, b ++ [m])

/-- The buffering step of `FileHandler.log` when `max_buffer_size > 0`: offer
the message to the buffer; if a drained message comes back and its stripped
value is non-empty it is dispatched to the files, otherwise nothing is
written this cycle.  Returns the dispatched string (if any) and the new
buffer. -/
def logBufferStep (maxBuf : ℕ) (b : List String) (m : String) :
    Option String × List String :=
  match writeToBuffer maxBuf b m with
  | (some drained, b') =>
      let s := pyStrip (bufValue drained)
      (if s = "" then none else some s, b')
  | (none, b') => (none, b')

/-! ## Dispatch-tier selection (`_writer_handler`, `_async_writer_handler`)

Both methods test `len(self.file_paths) > 50` FIRST and `> 1000` only in the
`elif`, so the `batcher_with_gcmanager` branch is unreachable. -/

/-- The three dispatch modes named in the handlers' docstrings. -/
inductive Dispatch where
  | direct      : Dispatch
  | plainBatch  : Dispatch
  | gcBatch     : Dispatch
deriving DecidableEq

/-- Branch selection of `FileHandler._writer_handler` on the path count:
`if len > 50` choose `batcher`, `elif len > 1000` choose
`batcher_with_gcmanager`, else the direct per-path loop. -/
def writerHandlerDispatch (n : ℕ) : Dispatch :=
  if n > 50 then .plainBatch
  else if n > 1000 then .gcBatch
  else .direct

/-- Branch selection of `FileHandler._async_writer_handler`; the source
repeats the same `if`/`elif` ordering. -/
def asyncWriterHandlerDispatch (n : ℕ) : Dispatch :=
  if n > 50 then .plainBatch
  else if n > 1000 then .gcBatch
  else .direct

/-! ## Configuration (`FileHandler.config`, the property setters)

`config` has `file_paths` as a required argument and gives every other
parameter a non-`None` default (`write_mode=APPEND`, `retry_limit=3`,
`retry_delay=0.5`, `backoff_factor=0.2`, `max_file_size=10*1024*1024`,
`max_rotation=5`, `max_buffer_size=1024*1024`, `use_write_flush=True`).
Each field is applied through its validating setter only when the argument
`is not None`.  An argument omitted at the call site therefore arrives as
its (non-`None`) default and is applied.  Numeric fields are `ℤ`/`ℚ` so the
setters' non-negativity validation is meaningful.  Filesystem-dependent path
validation (`path.is_dir()`) is not representable purely; the pure checks
(list non-empty, filename component at most 255 characters) are kept.
On a validation failure Python raises `FileHandlerConfigError`; the model
returns `.error ()` (our theorems only concern calls that succeed). -/

/-- `LogWriteMode` from `utils/module_enums.py`. -/
inductive LogWriteMode where
  | append    : LogWriteMode
  | overwrite : LogWriteMode
  | read      : LogWriteMode
  | readWrite : LogWriteMode
  | writeRead : LogWriteMode
deriving DecidableEq

/-- The configuration fields owned by a `FileHandler`. -/
structure Config where
  file_paths : List String
  write_mode : LogWriteMode
  retry_limit : ℤ
  retry_delay : ℚ
  backoff_factor : ℚ
  max_file_size : ℤ
  max_rotation : ℤ
  max_buffer_size : ℤ
  use_write_flush : Bool
deriving DecidableEq

/-- The arguments of one `config(...)` call.  `some v` is an argument whose
value is `v`; `none` is an argument explicitly passed as Python `None`.  An
argument *omitted* at the call site is represented by its declared default
(see `configCallDefaults`), exactly as Python fills it in. -/
structure ConfigArgs where
  file_paths : Option (List String)
  write_mode : Option LogWriteMode
  retry_limit : Option ℤ
  retry_delay : Option ℚ
  backoff_factor : Option ℚ
  max_file_size : Option ℤ
  max_rotation : Option ℤ
  max_buffer_size : Option ℤ
  use_write_flush : Option Bool
deriving DecidableEq

/-- The declared defaults of `config`'s optional parameters; a call that
supplies only `file_paths` passes exactly these for the rest. -/
def configCallDefaults (paths : List String) : ConfigArgs where
  file_paths := some paths
  write_mode := some .append
  retry_limit := some 3
  retry_delay := some (mkRat 1 2)
  backoff_factor := some (mkRat 1 5)
  max_file_size := some (10 * 1024 * 1024)
  max_rotation := some 5
  max_buffer_size := some (1024 * 1024)
  use_write_flush := some true

/-- Filename component of a path string (Python `Path(p).name`): the
characters after the last separator. -/
def pathFileName (p : String) : String :=
  ⟨(p.data.reverse.takeWhile (fun c => c ≠ '/')).reverse⟩

/-- The pure part of the `file_paths` setter validation: non-empty list,
each filename component at most 255 characters. -/
def validatePaths (ps : List String) : Bool :=
  !ps.isEmpty && ps.all (fun p => (pathFileName p).length ≤ 255)

/-- One `if arg is not None: setter` step of `config`: keep the current value
when the argument is `None`, otherwise validate and assign. -/
def setField (valid : α → Bool) (cur : α) : Option α → Except Unit α
  | none => .ok cur
  | some v => if valid v then .ok v else .error ()

/-- `FileHandler.config`: apply each argument that `is not None` through its
validating setter, in source order. -/
def applyConfig (c : Config) (a : ConfigArgs) : Except Unit Config := do
  let fp ← setField validatePaths c.file_paths a.file_paths
  let wm ← setField (fun _ => true) c.write_mode a.write_mode
  let rl ← setField (fun v => 0 ≤ v) c.retry_limit a.retry_limit
  let rd ← setField (fun v => 0 ≤ v) c.retry_delay a.retry_delay
  let bf ← setField (fun v => 0 ≤ v) c.backoff_factor a.backoff_factor
  let mf ← setField (fun v => 0 ≤ v) c.max_file_size a.max_file_size
  let mr ← setField (fun v => 0 ≤ v) c.max_rotation a.max_rotation
  let mb ← setField (fun v => 0 ≤ v) c.max_buffer_size a.max_buffer_size
  let uf ← setField (fun _ => true) c.use_write_flush a.use_write_flush
  pure { file_paths := fp, write_mode := wm, retry_limit := rl, retry_delay := rd,
         backoff_factor := bf, max_file_size := mf, max_rotation := mr,
         max_buffer_size := mb, use_write_flush := uf }

/-! ## Retry / backoff (`FileHandler._write_to_file`, lines 1038-1083)

The write loop runs at most `retry_limit` iterations; `counter` counts
failures.  After a failure, if `counter >= retry_limit` a `RuntimeError`
naming `retry_limit` attempts is raised (wrapped into
`FileHandlerWriteError` by `log`); otherwise, when `retry_delay > 0`, the
thread sleeps `retry_delay * backoff_factor**(counter-1)` if
`backoff_factor` is truthy (non-zero) and `retry_delay` otherwise.  Success
of attempt `i` is an oracle `ok i` (0-based); a "no sleep" is recorded as a
zero delay. -/

/-- Failure outcome of the retry loop: how many attempts ran, the attempt
count named by the raised error's message, and the inter-attempt delays. -/
structure RetryFail where
  attempts : ℕ
  named : ℕ
  delays : List ℚ
deriving DecidableEq

/-- The sleep performed after failure number `c` (`counter = c`), per the
source: nothing (0) when `retry_delay = 0`, else exponential when
`backoff_factor` is non-zero, else the constant delay. -/
def retrySleep (rd bf : ℚ) (c : ℕ) : ℚ :=
  if rd > 0 then (if bf ≠ 0 then rd * bf ^ (c - 1) else rd) else 0

/-- One pass of `for _ in range(retry_limit)` with failure counter `counter`,
accumulated delays `acc` (most recent first) and `fuel` remaining loop
iterations. -/
def retryGo (limit : ℕ) (rd bf : ℚ) (ok : ℕ → Bool) :
    ℕ → ℕ → List ℚ → Except RetryFail (ℕ × List ℚ)
  | _, 0, acc => .error ⟨limit, limit, acc.reverse⟩
  | counter, fuel + 1, acc =>
      if ok counter then .ok (counter + 1, acc.reverse)
      else
        let c := counter + 1
        if c ≥ limit then .error ⟨c, limit, acc.reverse⟩
        else retryGo limit rd bf ok c fuel (retrySleep rd bf c :: acc)

/-- The retry-write loop of `_write_to_file` for `retry_limit > 0`:
`.ok (attempts, delays)` when some attempt succeeds, `.error` when the
retries are exhausted. -/
def writeRetry (limit : ℕ) (rd bf : ℚ) (ok : ℕ → Bool) :
    Except RetryFail (ℕ × List ℚ) :=
  retryGo limit rd bf ok 0 limit []

/-- The delay the specification assigns before retry attempt `k + 2`
(failure counter `k + 1`): exponential for positive backoff, constant
otherwise. -/
def specDelay (rd bf : ℚ) (k : ℕ) : ℚ := if bf > 0 then rd * bf ^ k else rd

/-! ## Rotation (`FileHandler._rotate_file`, lines 874-934)

The filesystem around one log path is a map `ℕ → Option String`: index `0`
is the path itself, index `i ≥ 1` the numbered sibling `stem_i.ext`; `none`
means the file does not exist.  `_rotate_file` (after its size guard, under
the lock, with the slot already evicted):
* `max_rotation == 0`: `path.write_text("")` — truncate and return;
* else `for i in range(max_rotation - 1, 0, -1)`: if `_i` exists, unlink
  `_(i+1)` if present and rename `_i` to `_(i+1)`;
* then unlink `_1` if present, rename the path to `_1` (raising, hence
  `FileHandleRotateError`, when the path does not exist) and `path.touch()`.
-/

/-- One loop iteration of the rename chain at index `i`: when `_i` exists,
its content moves to `_(i+1)` (whose prior content is unlinked first) and
`_i` disappears. -/
def shiftStep (fs : ℕ → Option String) (i : ℕ) : ℕ → Option String :=
  match fs i with
  | none => fs
  | some c => Function.update (Function.update fs (i + 1) (some c)) i none

/-- The `for i in range(k, 0, -1)` rename loop: iterate `shiftStep` at
`i = k, k-1, …, 1`. -/
def shiftChain (fs : ℕ → Option String) : ℕ → (ℕ → Option String)
  | 0 => fs
  | k + 1 => shiftChain (shiftStep fs (k + 1)) k

/-- `FileHandler._rotate_file` after its size guard: truncate when
`max_rotation = 0`, otherwise run the rename chain, move the path's content
to `_1` and recreate an empty file at the path.  Renaming a non-existent
path raises, modelled as `.error ()`. -/
def rotateFile (fs : ℕ → Option String) (maxRotation : ℕ) :
    Except Unit (ℕ → Option String) :=
  if maxRotation = 0 then .ok (Function.update fs 0 (some ""))
  else
    match shiftChain fs (maxRotation - 1) 0 with
    | none => .error ()
    | some c =>
        .ok (Function.update
              (Function.update
                (Function.update
                  (Function.update (shiftChain fs (maxRotation - 1)) 1 none)
                  1 (some c))
                0 none)
              0 (some ""))

/-! ## Slot pool, teardown and the thread pool
(`clear_sync_pool`, `clear_all`, `__exit__`, `__del__`, `force_shutdown`)

State relevant to lifecycle claims.  Failure points that depend on the
environment (an I/O error while the drained buffer is dispatched or a file
flushed, a failure while clearing the pool dictionary, a failure closing one
file) are oracles carried in the state; the per-path close oracle is a
function so a single model covers every failure pattern. -/

/-- Lifecycle state of a handler: buffered messages, open-slot keys, the
configured paths, the worker pool's shutdown flag, and the failure
oracles. -/
structure HState where
  buffer : List String
  pool : List ℕ
  paths : List ℕ
  poolShutdown : Bool
  flushFails : Bool
  poolClearFails : Bool
  closeFails : ℕ → Bool

/-- Errors surfaced by the teardown paths. -/
inductive TdErr where
  | bufferErr  : TdErr
  | cleanupErr : TdErr
deriving DecidableEq

/-- `FileHandler.buffer_force_flush`: drain the buffer and dispatch its
content, then flush all open files; any failure is re-raised as
`FileHandlerBufferError`.  The buffer is already drained when the dispatch
fails, so the error state carries the drained buffer. -/
def bufferForceFlush (s : HState) : Except (TdErr × HState) HState :=
  let s' := if s.buffer.isEmpty then s else { s with buffer := [] }
  if s.flushFails then .error (.bufferErr, s') else .ok s'

/-- `FileHandler.clear_sync_pool`: return at once when the pool is empty;
otherwise close every file — a failing close is logged and swallowed, and
the slot is removed in the `finally` block regardless — then clear the
dictionary.  A failure of that final step is re-raised as
`FileHandlerSyncPoolCleanupError`, with every slot already removed. -/
def clearSyncPoolStep (s : HState) : Except (TdErr × HState) HState :=
  if s.pool.isEmpty then .ok s
  else
    let s' := { s with pool := [] }
    if s.poolClearFails then .error (.cleanupErr, s') else .ok s'

/-- `clear_sync_pool` as called by user code: the partial state at a raise
is discarded, only the error propagates. -/
def clearSyncPool (s : HState) : Except TdErr HState :=
  (clearSyncPoolStep s).mapError Prod.fst

/-- The step sequence shared by `clear_all` and `__del__`: force-flush the
buffer, clear the slot pool, empty the path list, shut the worker pool
down.  An error aborts the remaining steps; the error case carries the
state reached so far. -/
def teardownSeq (s : HState) : Except (TdErr × HState) HState := do
  let s1 ← bufferForceFlush s
  let s2 ← clearSyncPoolStep s1
  .ok { s2 with paths := [], poolShutdown := true }

/-- `FileHandler.clear_all`: the teardown sequence with every failure
propagated to the caller. -/
def clearAllModel (s : HState) : Except TdErr HState :=
  (teardownSeq s).mapError Prod.fst

/-- `FileHandler.__exit__`: force-flush the buffer, empty the path list,
clear the pool, shut the worker pool down — same failure points, failures
propagated. -/
def exitModel (s : HState) : Except TdErr HState :=
  ((do
    let s1 ← bufferForceFlush s
    let s2 := { s1 with paths := ([] : List ℕ) }
    let s3 ← clearSyncPoolStep s2
    .ok { s3 with poolShutdown := true } :
    Except (TdErr × HState) HState)).mapError Prod.fst

/-- `FileHandler.__del__`: the same sequence inside `try: … except: pass` —
no error ever escapes, but a failure still abandons the remaining steps. -/
def delModel (s : HState) : HState :=
  match teardownSeq s with
  | .ok t => t
  | .error (_, t) => t

/-! ## Fan-out dispatch under a shut-down pool
(`force_shutdown`, `_writer_handler`, `_async_writer_handler`)

With at most 50 paths `_writer_handler` runs `self._write_to_file(path,
message)` in a plain loop, never touching `self._threadpool`; with more it
submits batches via `self._threadpool.submit`, which raises once the
executor is shut down (`FileHandlerWriteError` after wrapping).  The
suspend-capable `_async_writer_handler` reaches `run_in_executor` on the
same pool in every tier, so it always fails once the pool is shut down. -/

/-- Result of dispatching one flushable message. -/
inductive WriteOutcome where
  | wrote (paths : List ℕ) : WriteOutcome
  | poolError : WriteOutcome
deriving DecidableEq

/-- `_writer_handler` observed through pool usage: the over-50 tiers submit
to the worker pool (failing when it is shut down); the small tier writes
directly. -/
def writerHandlerRun (shutdown : Bool) (paths : List ℕ) : WriteOutcome :=
  if paths.length > 50 then
    (if shutdown then .poolError else .wrote paths)
  else .wrote paths

/-- `_async_writer_handler` observed through pool usage: every tier offloads
onto the worker pool via `run_in_executor`. -/
def asyncWriterHandlerRun (shutdown : Bool) (paths : List ℕ) : WriteOutcome :=
  if shutdown then .poolError else .wrote paths

/-! ## Log entry points (`FileHandler.log`, `FileHandler.async_log`)

Both validate the message (`str`, non-empty after `strip()`), return
immediately when `self.file_paths` is empty — before the slot pool is
touched and before the message reaches the buffer — then initialize the
pool, and either route through the buffer (`max_buffer_size > 0`) or
dispatch directly. -/

/-- Errors raised by `log` / `async_log`. -/
inductive LogErr where
  | invalidMessage : LogErr
deriving DecidableEq

/-- The handler state seen by the log entry points. -/
structure LHandler where
  paths : List ℕ
  pool : List ℕ
  buffer : List String
  maxBufferSize : ℕ
deriving DecidableEq

/-- `FileHandler._init_sync_pool`: return when the path list is empty, else
open a slot for every configured path not already in the pool. -/
def initSyncPool (h : LHandler) : LHandler :=
  if h.paths.isEmpty then h
  else { h with pool := h.pool ++ h.paths.filter (fun p => ¬ p ∈ h.pool) }

/-- `FileHandler._ensure_sync_pool`: initialize only when the pool is
empty. -/
def ensureSyncPool (h : LHandler) : LHandler :=
  if h.pool.isEmpty then initSyncPool h else h

/-- Common body of `log` and `async_log` (they differ only in using
`_ensure_sync_pool` vs `_init_sync_pool` and in which writer dispatches):
validate, return unchanged on an empty path list, initialize the pool,
buffer or dispatch.  The result pairs the new state with the message
dispatched to the files (`none`: nothing written this call). -/
def logCore (poolInit : LHandler → LHandler) (h : LHandler) (m : String) :
    Except LogErr (LHandler × Option String) :=
  if pyStrip m = "" then .error .invalidMessage
  else if h.paths.isEmpty then .ok (h, none)
  else
    let h1 := poolInit h
    if h.maxBufferSize > 0 then
      let (dispatched, b') := logBufferStep h.maxBufferSize h1.buffer m
      .ok ({ h1 with buffer := b' }, dispatched)
    else .ok (h1, some m)

/-- `FileHandler.log`. -/
def logModel (h : LHandler) (m : String) : Except LogErr (LHandler × Option String) :=
  logCore ensureSyncPool h m

/-- `FileHandler.async_log` (it calls `_init_sync_pool` directly). -/
def asyncLogModel (h : LHandler) (m : String) : Except LogErr (LHandler × Option String) :=
  logCore initSyncPool h m

/-! ## Concrete states used by witnesses and counterexamples -/

/-- A handler configuration with non-default values on every field. -/
def cfgBefore : Config where
  file_paths := ["a.log"]
  write_mode := .overwrite
  retry_limit := 7
  retry_delay := 1
  backoff_factor := 1
  max_file_size := 100
  max_rotation := 1
  max_buffer_size := 0
  use_write_flush := false

/-- The arguments of the call `config(file_paths=[Path("b.log")])`: only the
path list supplied, every other parameter filled with its declared
default. -/
def cfgOnlyPaths : ConfigArgs := configCallDefaults ["b.log"]

/-- The configuration `config(file_paths=[Path("b.log")])` actually leaves
behind when applied to `cfgBefore`. -/
def cfgAfter : Config where
  file_paths := ["b.log"]
  write_mode := .append
  retry_limit := 3
  retry_delay := mkRat 1 2
  backoff_factor := mkRat 1 5
  max_file_size := 10 * 1024 * 1024
  max_rotation := 5
  max_buffer_size := 1024 * 1024
  use_write_flush := true

/-- A filesystem where the log exists, `_1` is absent and `_2` holds old
content. -/
def fsGap : ℕ → Option String :=
  fun n => if n = 0 then some "x" else if n = 2 then some "old" else none

/-- A filesystem where the log and `_1` both exist. -/
def fsFull : ℕ → Option String :=
  fun n => if n = 0 then some "x" else if n = 1 then some "y" else none

/-- A lifecycle state whose buffer dispatch fails while slots are open. -/
def sFlushFail : HState where
  buffer := ["m"]
  pool := [1]
  paths := [1]
  poolShutdown := false
  flushFails := true
  poolClearFails := false
  closeFails := fun _ => false

/-- A healthy lifecycle state with open slots whose closes all fail. -/
def sCloseFail : HState where
  buffer := ["m"]
  pool := [1, 2]
  paths := [1, 2]
  poolShutdown := false
  flushFails := false
  poolClearFails := false
  closeFails := fun _ => true

/-- A log-facing handler state with no configured paths but a non-empty
buffer and an empty pool. -/
def hNoPaths : LHandler where
  paths := []
  pool := []
  buffer := ["kept"]
  maxBufferSize := 10

/-! # Theorems -/

/-! ## Helper lemmas -/

/-- Every character occupies at least one UTF-8 byte, so a string never has
more characters than bytes. -/
theorem stringLength_le_utf8ByteSize (m : String) : m.length ≤ m.utf8ByteSize := by
  cases m with
  | mk l =>
    show l.length ≤ String.utf8ByteSize.go l
    induction l with
    | nil => simp [String.utf8ByteSize.go]
    | cons c cs ih =>
      have hc := Char.utf8Size_pos c
      simp only [String.utf8ByteSize.go, List.length_cons]
      omega

/-- Decompose a successful `Except` bind. -/
theorem exceptBindOk {α β ε : Type} {e : Except ε α} {f : α → Except ε β} {b : β}
    (h : e >>= f = Except.ok b) : ∃ a, e = Except.ok a ∧ f a = Except.ok b := by
  cases e with
  | error u => simp [Bind.bind, Except.bind] at h
  | ok a => exact ⟨a, rfl, by simpa [Bind.bind, Except.bind] using h⟩

/-- A successful `setField` yields the argument when present and the current
value when the argument is `None`. -/
theorem setField_ok {α : Type} {valid : α → Bool} {cur : α} {o : Option α} {x : α}
    (h : setField valid cur o = .ok x) : x = o.getD cur := by
  cases o with
  | none =>
    simp only [setField] at h
    cases h
    rfl
  | some v =>
    simp only [setField] at h
    split at h
    · cases h
      rfl
    · cases h

/-! ## C1 — buffer overflow drains without the triggering message -/

/-- C1 counterexample: with `max_buffer_size = 3` and an empty buffer,
appending `"abc"` plus its newline (4 bytes) would exceed the ceiling, yet
`_write_to_buffer` appends instead of draining, because its check omits the
newline byte: the claim's trigger condition does not imply a drain. -/
theorem c1_counterexample :
    bufTell [] + msgBytes "abc" + 1 > 3 ∧
    writeToBuffer 3 [] "abc" = (none, ["abc"]) := by
  decide

/-- C1 amended: whenever the *current byte count plus the message's byte
length without the newline* exceeds `max_buffer_size > 0`, the offer drains
and returns exactly the previously buffered content, resets the buffer and
drops the triggering message; in particular a single oversized message
offered to an empty buffer dispatches nothing to the files. -/
theorem c1_overflow_drains (maxBuf : ℕ) (b : List String) (m : String)
    (_hpos : 0 < maxBuf) (hover : bufTell b + msgBytes m > maxBuf) :
    writeToBuffer maxBuf b m = (some b, []) ∧
    (msgBytes m > maxBuf → logBufferStep maxBuf [] m = (none, [])) := by
  refine ⟨?_, ?_⟩
  · unfold writeToBuffer
    rw [if_pos hover]
  · intro hm
    have hw : writeToBuffer maxBuf [] m = (some [], []) := by
      unfold writeToBuffer
      rw [if_pos]
      simpa [bufTell] using hm
    unfold logBufferStep
    rw [hw]
    decide

/-- C1 amended, witnessed at `max_buffer_size = 3`, empty buffer,
message `"abcd"` (4 bytes). -/
theorem c1_overflow_drains_witness :
    writeToBuffer 3 [] "abcd" = (some [], []) ∧
    logBufferStep 3 [] "abcd" = (none, []) :=
  ⟨(c1_overflow_drains 3 [] "abcd" (by decide) (by decide)).1,
   (c1_overflow_drains 3 [] "abcd" (by decide) (by decide)).2 (by decide)⟩

/-! ## C9 — buffer ceiling invariant -/

/-- C9 counterexample: the overflow check adds the message's *byte* length
to `tell()`, which counts *characters*.  Two offers of two-byte-per-char
messages (max 10) are both appended, leaving 16 bytes in a buffer whose
ceiling is 10: the stored content exceeds the ceiling by more than one
byte. -/
theorem c9_counterexample :
    writeToBuffer 10 [] "ééééé" = (none, ["ééééé"]) ∧
    writeToBuffer 10 ["ééééé"] "éé" = (none, ["ééééé", "éé"]) ∧
    bufBytes ["ééééé", "éé"] = 16 ∧ 16 > 10 + 1 := by
  decide

/-- C9 amended: whenever an offer appends instead of draining, the buffer's
*character* count afterwards is at most `max_buffer_size + 1`; since every
character is at least one UTF-8 byte this also bounds the byte count for
ASCII-only content, but not in general. -/
theorem c9_char_ceiling (maxBuf : ℕ) (b : List String) (m : String)
    (b' : List String) (h : writeToBuffer maxBuf b m = (none, b')) :
    bufTell b' ≤ maxBuf + 1 := by
  unfold writeToBuffer at h
  by_cases hc : bufTell b + msgBytes m > maxBuf
  · rw [if_pos hc] at h
    simp at h
  · rw [if_neg hc] at h
    have hb : b ++ [m] = b' := congrArg Prod.snd h
    subst hb
    have hle : bufTell b + msgBytes m ≤ maxBuf := Nat.not_lt.mp hc
    have hlen : m.length ≤ msgBytes m := stringLength_le_utf8ByteSize m
    have hsplit : bufTell (b ++ [m]) = bufTell b + (m.length + 1) := by
      simp [bufTell]
    omega

/-- C9 amended, witnessed: appending `"abc"` to an empty buffer with ceiling
10 leaves at most 11 characters. -/
theorem c9_char_ceiling_witness : bufTell ["abc"] ≤ 10 + 1 :=
  c9_char_ceiling 10 [] "abc" ["abc"] (by decide)

/-! ## C2 — dispatch tier selection -/

/-- C2: the `> 1000` tier of both `_writer_handler` and
`_async_writer_handler` is dead code — `len > 50` is tested first, so 1001
paths select the plain batcher and `batcher_with_gcmanager` is selected for
no path count at all, contradicting the functions' own docstrings. -/
theorem c2_gc_tier_unreachable :
    writerHandlerDispatch 1001 = .plainBatch ∧
    asyncWriterHandlerDispatch 1001 = .plainBatch ∧
    ∀ n, writerHandlerDispatch n ≠ .gcBatch ∧ asyncWriterHandlerDispatch n ≠ .gcBatch := by
  refine ⟨by decide, by decide, fun n => ⟨?_, ?_⟩⟩
  · unfold writerHandlerDispatch
    split
    · simp
    · split
      · omega
      · simp
  · unfold asyncWriterHandlerDispatch
    split
    · simp
    · split
      · omega
      · simp

/-! ## C3 — partial configure -/

/-- C3 counterexample: `cfgBefore` has `retry_limit = 7`; the call
`config(file_paths=[Path("b.log")])` supplies only the path list, yet the
resulting configuration has `retry_limit = 3` (the declared default) — a
field not supplied in the call did not keep its previous value. -/
theorem c3_counterexample :
    applyConfig cfgBefore cfgOnlyPaths = .ok cfgAfter ∧
    cfgBefore.retry_limit = 7 ∧ cfgAfter.retry_limit = 3 := by
  exact ⟨rfl, rfl, rfl⟩

/-- C3 amended: a successful `config` call sets every field whose argument
is non-`None` to that argument and keeps every field whose argument is
explicitly `None`; since every parameter except `logger` has a non-`None`
declared default, a field *omitted* from the call is overwritten with its
default rather than kept. -/
theorem c3_config_fields (c : Config) (a : ConfigArgs) (c' : Config)
    (h : applyConfig c a = .ok c') :
    c' = { file_paths := a.file_paths.getD c.file_paths,
           write_mode := a.write_mode.getD c.write_mode,
           retry_limit := a.retry_limit.getD c.retry_limit,
           retry_delay := a.retry_delay.getD c.retry_delay,
           backoff_factor := a.backoff_factor.getD c.backoff_factor,
           max_file_size := a.max_file_size.getD c.max_file_size,
           max_rotation := a.max_rotation.getD c.max_rotation,
           max_buffer_size := a.max_buffer_size.getD c.max_buffer_size,
           use_write_flush := a.use_write_flush.getD c.use_write_flush } := by
  unfold applyConfig at h
  obtain ⟨fp, h1, h⟩ := exceptBindOk h
  obtain ⟨wm, h2, h⟩ := exceptBindOk h
  obtain ⟨rl, h3, h⟩ := exceptBindOk h
  obtain ⟨rd, h4, h⟩ := exceptBindOk h
  obtain ⟨bf, h5, h⟩ := exceptBindOk h
  obtain ⟨mf, h6, h⟩ := exceptBindOk h
  obtain ⟨mr, h7, h⟩ := exceptBindOk h
  obtain ⟨mb, h8, h⟩ := exceptBindOk h
  obtain ⟨uf, h9, h⟩ := exceptBindOk h
  have hc : c' = { file_paths := fp, write_mode := wm, retry_limit := rl,
                   retry_delay := rd, backoff_factor := bf, max_file_size := mf,
                   max_rotation := mr, max_buffer_size := mb,
                   use_write_flush := uf } := by
    simpa [Pure.pure, Except.pure] using h.symm
  rw [hc, setField_ok h1, setField_ok h2, setField_ok h3, setField_ok h4,
      setField_ok h5, setField_ok h6, setField_ok h7, setField_ok h8,
      setField_ok h9]

/-- C3 amended, witnessed on the partial call
`config(file_paths=[Path("b.log")])` against `cfgBefore`. -/
theorem c3_config_fields_witness :
    cfgAfter =
      { file_paths := cfgOnlyPaths.file_paths.getD cfgBefore.file_paths,
        write_mode := cfgOnlyPaths.write_mode.getD cfgBefore.write_mode,
        retry_limit := cfgOnlyPaths.retry_limit.getD cfgBefore.retry_limit,
        retry_delay := cfgOnlyPaths.retry_delay.getD cfgBefore.retry_delay,
        backoff_factor := cfgOnlyPaths.backoff_factor.getD cfgBefore.backoff_factor,
        max_file_size := cfgOnlyPaths.max_file_size.getD cfgBefore.max_file_size,
        max_rotation := cfgOnlyPaths.max_rotation.getD cfgBefore.max_rotation,
        max_buffer_size := cfgOnlyPaths.max_buffer_size.getD cfgBefore.max_buffer_size,
        use_write_flush := cfgOnlyPaths.use_write_flush.getD cfgBefore.use_write_flush } :=
  c3_config_fields cfgBefore cfgOnlyPaths cfgAfter rfl

/-! ## C4 — retry count and backoff delays -/

/-- Unfolding of the retry loop when every attempt fails: it raises after
exactly `limit` attempts, naming `limit`, having slept the source's delay
after each non-final failure. -/
theorem retryGo_allFail (limit : ℕ) (rd bf : ℚ) :
    ∀ fuel counter acc, counter < limit → limit ≤ counter + fuel →
      retryGo limit rd bf (fun _ => false) counter fuel acc =
        .error ⟨limit, limit,
          acc.reverse ++ (List.range' (counter + 1) (limit - 1 - counter)).map (retrySleep rd bf)⟩ := by
  intro fuel
  induction fuel with
  | zero => intro counter acc hlt hle; omega
  | succ fuel ih =>
    intro counter acc hlt hle
    unfold retryGo
    simp only [Bool.false_eq_true, if_false]
    by_cases hc : counter + 1 ≥ limit
    · rw [if_pos hc]
      have h1 : counter + 1 = limit := by omega
      have h2 : limit - 1 - counter = 0 := by omega
      rw [h1, h2]
      simp
    · rw [if_neg hc]
      rw [ih (counter + 1) (retrySleep rd bf (counter + 1) :: acc) (by omega) (by omega)]
      have h3 : limit - 1 - counter = (limit - 1 - (counter + 1)) + 1 := by omega
      rw [h3, List.range'_succ]
      simp

/-- C4: with `retry_limit ≥ 1` and validated non-negative `retry_delay` and
`backoff_factor`, a persistently failing write is attempted exactly
`retry_limit` times and then raises an error naming that attempt count, and
the delay before retry attempt `k + 2` is
`retry_delay * backoff_factor ^ k` when `backoff_factor > 0` and the
constant `retry_delay` when `backoff_factor = 0`. -/
theorem c4_retry_backoff (limit : ℕ) (rd bf : ℚ) (hl : 1 ≤ limit)
    (hrd : 0 ≤ rd) (hbf : 0 ≤ bf) :
    writeRetry limit rd bf (fun _ => false) =
      .error ⟨limit, limit, (List.range (limit - 1)).map (specDelay rd bf)⟩ := by
  unfold writeRetry
  rw [retryGo_allFail limit rd bf limit 0 [] (by omega) (by omega)]
  have hmap : (List.range' (0 + 1) (limit - 1 - 0)).map (retrySleep rd bf) =
      (List.range (limit - 1)).map (specDelay rd bf) := by
    rw [List.range'_eq_map_range, List.map_map]
    refine List.map_congr_left fun k _ => ?_
    show retrySleep rd bf (1 + k) = specDelay rd bf k
    unfold retrySleep specDelay
    have hk : 1 + k - 1 = k := by omega
    rcases lt_or_eq_of_le hrd with hr | hr
    · rw [if_pos hr]
      rcases lt_or_eq_of_le hbf with hb | hb
      · rw [if_pos (ne_of_gt hb), if_pos hb, hk]
      · rw [← hb]
        simp
    · rw [← hr]
      simp only [lt_self_iff_false, if_false]
      split
      · ring
      · rfl
  rw [hmap]
  simp

/-- C4 witnessed at the specification's scenario `retry_limit = 3`,
`retry_delay = 1/2`, `backoff_factor = 1/5`: three attempts, then the error
naming 3 attempts, with inter-attempt delays `1/2` and `1/10`. -/
theorem c4_retry_backoff_witness :
    writeRetry 3 (mkRat 1 2) (mkRat 1 5) (fun _ => false) =
      .error ⟨3, 3, (List.range (3 - 1)).map (specDelay (mkRat 1 2) (mkRat 1 5))⟩ ∧
    (List.range (3 - 1)).map (specDelay (mkRat 1 2) (mkRat 1 5)) =
      [mkRat 1 2, mkRat 1 10] :=
  ⟨c4_retry_backoff 3 (mkRat 1 2) (mkRat 1 5) (by decide) (by decide) (by decide),
   by norm_num [specDelay, Rat.mkRat_eq_div, List.range_succ]⟩

/-! ## C5 — rotation rename chain -/

/-- `shiftStep` touches only indices `i` and `i + 1`. -/
theorem shiftStep_apply_ne (fs : ℕ → Option String) (i j : ℕ)
    (h1 : j ≠ i) (h2 : j ≠ i + 1) : shiftStep fs i j = fs j := by
  unfold shiftStep
  cases hfs : fs i with
  | none => rfl
  | some c =>
    show Function.update (Function.update fs (i + 1) (some c)) i none j = fs j
    rw [Function.update_noteq h1, Function.update_noteq h2]

/-- The rename loop never touches the log path itself (index 0). -/
theorem shiftChain_apply_zero (k : ℕ) :
    ∀ fs : ℕ → Option String, shiftChain fs k 0 = fs 0 := by
  induction k with
  | zero => intro fs; rfl
  | succ k ih =>
    intro fs
    show shiftChain (shiftStep fs (k + 1)) k 0 = fs 0
    rw [ih, shiftStep_apply_ne fs (k + 1) 0 (by omega) (by omega)]

/-- The rename loop starting at `i = k` never touches indices above
`k + 1`. -/
theorem shiftChain_apply_high (k : ℕ) :
    ∀ (fs : ℕ → Option String) (j : ℕ), k + 1 < j → shiftChain fs k j = fs j := by
  induction k with
  | zero => intro fs j _; rfl
  | succ k ih =>
    intro fs j hj
    show shiftChain (shiftStep fs (k + 1)) k j = fs j
    rw [ih _ j (by omega), shiftStep_apply_ne fs (k + 1) j (by omega) (by omega)]

/-- When the loop starts at `i = k ≥ 1` and `_k` exists, its content ends up
at `_(k+1)`. -/
theorem shiftChain_apply_top (k : ℕ) (fs : ℕ → Option String) (d : String)
    (hk : 1 ≤ k) (hd : fs k = some d) : shiftChain fs k (k + 1) = some d := by
  obtain ⟨k', rfl⟩ : ∃ k', k = k' + 1 := ⟨k - 1, by omega⟩
  show shiftChain (shiftStep fs (k' + 1)) k' (k' + 2) = some d
  rw [shiftChain_apply_high k' _ _ (by omega)]
  unfold shiftStep
  rw [hd]
  show Function.update (Function.update fs (k' + 1 + 1) (some d)) (k' + 1) none (k' + 2) = some d
  rw [Function.update_noteq (by omega), show k' + 1 + 1 = k' + 2 by omega, Function.update_same]

/-- C5 counterexample: `max_rotation = 2`, the log holds `"x"`, `_1` is
absent and `_2` holds `"old"`.  Rotation succeeds — the log moves to `_1`
and an empty file replaces it — but the content previously at `_2` is NOT
discarded: the loop's rename of `_1` onto `_2` is skipped because `_1` does
not exist, so `_2` still holds `"old"`. -/
theorem c5_counterexample :
    (rotateFile fsGap 2).map (fun f => (f 0, f 1, f 2)) =
      .ok (some "", some "x", some "old") ∧
    fsGap 2 = some "old" :=
  ⟨rfl, rfl⟩

/-- C5 amended: rotation performs the source's rename chain; when
`max_rotation = 0` the path is truncated in place and nothing else changes;
when `max_rotation = N ≥ 1` and the path exists, rotation succeeds, the
prior content of the path is at `_1`, the path exists empty, and the
content previously at `_N` is discarded *provided `_(N-1)` existed before
the rotation* (its content replaces `_N`; when `_(N-1)` is absent, `_N` is
left untouched — see the counterexample). -/
theorem c5_rotate_chain (fs : ℕ → Option String) (N : ℕ) (c : String)
    (hN : 1 ≤ N) (h0 : fs 0 = some c) :
    rotateFile fs 0 = .ok (Function.update fs 0 (some "")) ∧
    ∃ g, rotateFile fs N = .ok g ∧ g 0 = some "" ∧ g 1 = some c ∧
      (∀ d, 2 ≤ N → fs (N - 1) = some d → g N = some d) := by
  constructor
  · unfold rotateFile
    rw [if_pos rfl]
  · unfold rotateFile
    rw [if_neg (by omega), shiftChain_apply_zero, h0]
    refine ⟨_, rfl, ?_, ?_, ?_⟩
    · rw [Function.update_same]
    · rw [Function.update_noteq (by omega), Function.update_noteq (by omega),
          Function.update_same]
    · intro d h2 hd
      rw [Function.update_noteq (by omega), Function.update_noteq (by omega),
          Function.update_noteq (by omega), Function.update_noteq (by omega)]
      have hNk : N - 1 + 1 = N := by omega
      calc shiftChain fs (N - 1) N = shiftChain fs (N - 1) (N - 1 + 1) := by rw [hNk]
        _ = some d := shiftChain_apply_top (N - 1) fs d (by omega) hd

/-- C5 amended, witnessed on a filesystem where the path holds `"x"` and
`_1` holds `"y"`, with `max_rotation = 2`. -/
theorem c5_rotate_chain_witness :
    rotateFile fsFull 0 = .ok (Function.update fsFull 0 (some "")) ∧
    ∃ g, rotateFile fsFull 2 = .ok g ∧ g 0 = some "" ∧ g 1 = some "x" ∧
      (∀ d, 2 ≤ 2 → fsFull (2 - 1) = some d → g 2 = some d) :=
  c5_rotate_chain fsFull 2 "x" (by decide) rfl

/-! ## C6 — writes while the pool is shut down -/

/-- C6 counterexample: with the worker pool shut down and a single
configured path, the synchronous dispatch writes successfully — the ≤ 50
tier is a plain loop that never touches the pool, so the write does not
fail fast. -/
theorem c6_counterexample : writerHandlerRun true [0] = .wrote [0] := by
  decide

/-- C6 amended: after `force_shutdown`, a synchronous dispatch of a
flushable message fails fast only when the path count exceeds 50 (the
batched tiers submit to the shut-down pool); with at most 50 paths the
direct loop bypasses the pool and the write succeeds.  The suspend-capable
dispatch offloads onto the pool in every tier and therefore fails fast for
every path count. -/
theorem c6_shutdown_fail_fast (paths : List ℕ) :
    (paths.length > 50 → writerHandlerRun true paths = .poolError) ∧
    (paths.length ≤ 50 → writerHandlerRun true paths = .wrote paths) ∧
    asyncWriterHandlerRun true paths = .poolError := by
  refine ⟨fun h => ?_, fun h => ?_, rfl⟩
  · unfold writerHandlerRun
    rw [if_pos h]
    rfl
  · unfold writerHandlerRun
    rw [if_neg (by omega)]

/-- C6 amended, witnessed at 51 paths (fails fast) and one path (write goes
through synchronously, fails fast asynchronously). -/
theorem c6_shutdown_fail_fast_witness :
    writerHandlerRun true (List.replicate 51 0) = .poolError ∧
    writerHandlerRun true [0] = .wrote [0] ∧
    asyncWriterHandlerRun true [0] = .poolError :=
  ⟨(c6_shutdown_fail_fast (List.replicate 51 0)).1 (by decide),
   (c6_shutdown_fail_fast [0]).2.1 (by decide),
   (c6_shutdown_fail_fast [0]).2.2⟩

/-! ## C7 — teardown error handling -/

/-- C7 counterexample: in a state whose buffer dispatch fails, `clear_all`
propagates `FileHandlerBufferError` to the caller, and the remaining
release steps are skipped — the slot pool still holds its open slot even on
the swallowing destructor path. -/
theorem c7_counterexample :
    clearAllModel sFlushFail = .error .bufferErr ∧
    (delModel sFlushFail).pool = [1] :=
  ⟨rfl, rfl⟩

/-- C7 amended: teardown via `clear_all` or `__exit__` PROPAGATES failures
(a buffer force-flush failure as `FileHandlerBufferError`, a pool-cleanup
failure as `FileHandlerSyncPoolCleanupError`) and aborts the remaining
release steps; only the destructor (`__del__`) swallows teardown failures,
and it too abandons the remaining steps at the first failure.  Within
`clear_sync_pool`, individual file-close failures are swallowed and every
slot is still evicted, so a failure-free flush and pool clear complete the
full teardown regardless of per-file close failures. -/
theorem c7_teardown_propagation (s : HState) :
    (s.flushFails = true →
      clearAllModel s = .error .bufferErr ∧ exitModel s = .error .bufferErr ∧
      (delModel s).pool = s.pool ∧ (delModel s).paths = s.paths ∧
      (delModel s).poolShutdown = s.poolShutdown) ∧
    (s.flushFails = false → s.poolClearFails = true → s.pool ≠ [] →
      clearAllModel s = .error .cleanupErr) ∧
    (s.flushFails = false → s.poolClearFails = false →
      clearAllModel s = .ok (delModel s) ∧ (delModel s).buffer = [] ∧
      (delModel s).pool = [] ∧ (delModel s).paths = [] ∧
      (delModel s).poolShutdown = true) := by
  refine ⟨fun hf => ?_, fun hf hp hne => ?_, fun hf hp => ?_⟩ <;>
    by_cases hb : s.buffer.isEmpty <;>
    by_cases hpo : s.pool.isEmpty <;>
    simp_all [clearAllModel, exitModel, delModel, teardownSeq, bufferForceFlush,
      clearSyncPoolStep, Bind.bind, Except.bind, Except.mapError]

/-- C7 amended, witnessed on a failing flush (`sFlushFail`) and on a state
whose individual closes all fail but whose flush and pool clear succeed
(`sCloseFail`). -/
theorem c7_teardown_propagation_witness :
    (clearAllModel sFlushFail = .error .bufferErr ∧
     exitModel sFlushFail = .error .bufferErr ∧
     (delModel sFlushFail).pool = sFlushFail.pool ∧
     (delModel sFlushFail).paths = sFlushFail.paths ∧
     (delModel sFlushFail).poolShutdown = sFlushFail.poolShutdown) ∧
    (clearAllModel sCloseFail = .ok (delModel sCloseFail) ∧
     (delModel sCloseFail).buffer = [] ∧
     (delModel sCloseFail).pool = [] ∧ (delModel sCloseFail).paths = [] ∧
     (delModel sCloseFail).poolShutdown = true) :=
  ⟨(c7_teardown_propagation sFlushFail).1 rfl,
   (c7_teardown_propagation sCloseFail).2.2 rfl rfl⟩

/-! ## C8 — idempotence of clear_sync_pool -/

/-- C8: after a successful `clear_sync_pool`, the pool is empty; a second
call hits the empty-pool early return, changes nothing and raises no
error. -/
theorem c8_clear_pool_idem (s s' : HState) (h : clearSyncPool s = .ok s') :
    s'.pool = [] ∧ clearSyncPool s' = .ok s' := by
  unfold clearSyncPool clearSyncPoolStep at h
  by_cases hp : s.pool.isEmpty
  · rw [if_pos hp] at h
    have hs : s = s' := by simpa [Except.mapError] using h
    subst hs
    refine ⟨by simpa using hp, ?_⟩
    unfold clearSyncPool clearSyncPoolStep
    rw [if_pos hp]
    rfl
  · rw [if_neg hp] at h
    by_cases hc : s.poolClearFails
    · rw [if_pos hc] at h
      simp [Except.mapError] at h
    · rw [if_neg hc] at h
      have hs : ({ s with pool := [] } : HState) = s' := by
        simpa [Except.mapError] using h
      refine ⟨by rw [← hs], ?_⟩
      unfold clearSyncPool clearSyncPoolStep
      rw [if_pos (show s'.pool.isEmpty = true by rw [← hs]; rfl)]
      rfl

/-- C8 witnessed: clearing a two-slot pool whose closes all fail still
empties it, and the second call is an error-free no-op. -/
theorem c8_clear_pool_idem_witness :
    ({ sCloseFail with pool := [] } : HState).pool = [] ∧
    clearSyncPool { sCloseFail with pool := [] } =
      .ok { sCloseFail with pool := [] } :=
  c8_clear_pool_idem sCloseFail { sCloseFail with pool := [] } rfl

/-! ## C10 — logging with an empty path list -/

/-- C10: when the configured path list is empty, `log` and `async_log` with
any valid (non-empty after strip) message return normally, dispatch nothing
to any file, and leave the handler state — pool and buffer included —
untouched: the empty-path check runs before pool initialization and before
the message reaches the buffer. -/
theorem c10_empty_paths_noop (h : LHandler) (m : String) (hp : h.paths = [])
    (hm : pyStrip m ≠ "") :
    logModel h m = .ok (h, none) ∧ asyncLogModel h m = .ok (h, none) := by
  constructor <;> simp [logModel, asyncLogModel, logCore, hm, hp]

/-- C10 witnessed on a pathless handler with a non-empty buffer and the
message `"hello"`. -/
theorem c10_empty_paths_noop_witness :
    logModel hNoPaths "hello" = .ok (hNoPaths, none) ∧
    asyncLogModel hNoPaths "hello" = .ok (hNoPaths, none) :=
  c10_empty_paths_noop hNoPaths "hello" rfl (by decide)

end JrPyWriter
